import Mathlib

/-!
Verification development for `flight_snapshotter.py`, a script that captures
periodic screenshots of a Flightradar24 map view.  The numeric parts of the
script (Python floats) are modelled over `ℚ`; strings are modelled as
`List Char`; the browser driver, the clock and the random generator are
modelled as explicit parameters.
-/

namespace FlightSnapshotter

/-- Python's `%` operator on floats (for a positive divisor):
`a % b = a - b * floor (a / b)`, the remainder with the sign of the divisor. -/
def pymod (a b : ℚ) : ℚ := a - b * ⌊a / b⌋

/-- Longitude normalization used at line 265 of the source:
`((x + 180.0) % 360.0) - 180.0`. -/
def wrap (x : ℚ) : ℚ := pymod (x + 180) 360 - 180

/-- The un-normalized longitude: `orig_long_val - delta_deg` with
`delta_deg = 15.0 * elapsed_hours` and `elapsed_hours = elapsed_seconds / 3600.0`
(source lines 260-264). `t` is elapsed wall-clock seconds since browser launch. -/
def unwrappedLong (origLong t : ℚ) : ℚ := origLong - 15 * (t / 3600)

/-- `current_long` as computed at source line 265:
`((orig_long_val - delta_deg + 180.0) % 360.0) - 180.0`. -/
def rotationLong (origLong t : ℚ) : ℚ := pymod (origLong - 15 * (t / 3600) + 180) 360 - 180

/-- The latitude written into the URL each cycle is the original latitude
`orig_lat_val` (source line 268); it does not depend on elapsed time. -/
def rotationLat (origLat : ℚ) (_t : ℚ) : ℚ := origLat

theorem pymod_nonneg (a : ℚ) : 0 ≤ pymod a 360 := by
  have h := Int.fract_nonneg (α := ℚ) (a / 360)
  rw [Int.fract] at h
  have : pymod a 360 = 360 * (a / 360 - ⌊a / 360⌋) := by
    unfold pymod; ring
  rw [this]
  nlinarith

theorem pymod_lt (a : ℚ) : pymod a 360 < 360 := by
  have h := Int.fract_lt_one (α := ℚ) (a / 360)
  rw [Int.fract] at h
  have : pymod a 360 = 360 * (a / 360 - ⌊a / 360⌋) := by
    unfold pymod; ring
  rw [this]
  nlinarith

theorem wrap_mem (x : ℚ) : -180 ≤ wrap x ∧ wrap x < 180 := by
  constructor
  · have := pymod_nonneg (x + 180)
    unfold wrap; linarith
  · have := pymod_lt (x + 180)
    unfold wrap; linarith

theorem wrap_idem (x : ℚ) : wrap (wrap x) = wrap x := by
  obtain ⟨h1, h2⟩ := wrap_mem x
  have hfloor : ⌊(wrap x + 180) / 360⌋ = 0 := by
    rw [Int.floor_eq_zero_iff]
    constructor
    · have : (0 : ℚ) ≤ wrap x + 180 := by linarith
      positivity
    · rw [div_lt_one (by norm_num)]
      linarith
  show pymod (wrap x + 180) 360 - 180 = wrap x
  rw [pymod, hfloor]
  push_cast
  ring

/-- The frozen configuration dataclass `Config` (source lines 23-39).
Python floats are modelled as `ℚ`, strings as `List Char` or `String`. -/
structure Config where
  url : List Char
  output_dir : List Char
  min_minutes : ℚ
  max_minutes : ℚ
  page_load_timeout_ms : ℤ
  settle_seconds : ℚ
  width : ℤ
  height : ℤ
  headless : Bool
  wait_until : String
  wait_for_selector : Option String
  wait_for_selector_timeout_ms : ℤ
  fixed_interval_minutes : Option ℚ
  follow_rotation : Bool
deriving DecidableEq

/-- The parsed command-line argument values handed to the validation step in
`parse_args` (source lines 49-116). -/
structure Args where
  url : List Char
  output_dir : List Char
  min_minutes : ℚ
  max_minutes : ℚ
  page_load_timeout : ℤ
  wait_until : String
  wait_for_selector : Option String
  wait_for_selector_timeout : ℤ
  fixed_interval : Option ℚ
  follow_rotation : Bool
  settle_seconds : ℚ
  width : ℤ
  height : ℤ
  headed : Bool
deriving DecidableEq

/-- The `Config` value built from validated arguments
(source lines 123-138). -/
def configOf (a : Args) : Config where
  url := a.url
  output_dir := a.output_dir
  min_minutes := a.min_minutes
  max_minutes := a.max_minutes
  page_load_timeout_ms := a.page_load_timeout
  settle_seconds := a.settle_seconds
  width := a.width
  height := a.height
  headless := !a.headed
  wait_until := a.wait_until
  wait_for_selector := a.wait_for_selector
  wait_for_selector_timeout_ms := a.wait_for_selector_timeout
  fixed_interval_minutes := a.fixed_interval
  follow_rotation := a.follow_rotation

/-- Validation and construction of the `Config` in `parse_args`
(source lines 118-138).  `parser.error` terminates the process before
returning, modelled as `Except.error` with the source's message. -/
def parse_args (a : Args) : Except String Config :=
  if a.min_minutes ≤ 0 ∨ a.max_minutes ≤ 0 then
    Except.error "--min-minutes and --max-minutes must be greater than zero."
  else if a.max_minutes < a.min_minutes then
    Except.error "--max-minutes must be greater than or equal to --min-minutes."
  else
    Except.ok (configOf a)

/-- `choose_wait_seconds` (source lines 149-157).  The call
`random.uniform(lo, hi)` is modelled by the oracle argument `uniform`,
whose contract is `lo ≤ uniform lo hi ≤ hi` for `lo ≤ hi`. -/
def choose_wait_seconds (config : Config) (uniform : ℚ → ℚ → ℚ) : ℚ :=
  match config.fixed_interval_minutes with
  | some f => f * 60
  | none => uniform (config.min_minutes * 60) (config.max_minutes * 60)

/-- The wait chosen at cycle `n` of the loop: each cycle performs a fresh call
to `random.uniform` (source line 314), modelled as the `n`-th element of a
stream of oracles. -/
def choose_wait_at (config : Config) (draws : ℕ → ℚ → ℚ → ℚ) (n : ℕ) : ℚ :=
  choose_wait_seconds config (draws n)

/-- Observable actions of `run` against the browser driver, the filesystem
and the console. -/
inductive Event where
  | mkdirOutput
  | browserLaunch
  | newContext
  | goto
  | warnNavTimeout
  | waitSelector
  | warnSelectorTimeout
  | settleSleep
  | screenshot
  | closeContext
  | printStopped
  | closeBrowser
deriving DecidableEq

/-- The first resource-acquiring actions of `run`: creating the output
directory (source line 169) and launching the browser (source line 221). -/
def runStartEvents : List Event := [Event.mkdirOutput, Event.browserLaunch]

/-- `main` (source lines 342-345): `parse_args` runs first; only on success is
`run` entered, whose first resource actions are `runStartEvents`.  On a
validation error the process exits with no action taken. -/
def mainStartModel (a : Args) : Except String Unit × List Event :=
  match parse_args a with
  | Except.error e => (Except.error e, [])
  | Except.ok _ => (Except.ok (), runStartEvents)

/-- Concrete argument values matching the parser defaults (source lines
49-114), used to evaluate the theorems on closed inputs. -/
def defaultArgs : Args where
  url := "https://www.flightradar24.com/50.00,1.70/5".data
  output_dir := "snapshots/flightradar24".data
  min_minutes := 5
  max_minutes := 10
  page_load_timeout := 60000
  wait_until := "networkidle"
  wait_for_selector := none
  wait_for_selector_timeout := 5000
  fixed_interval := none
  follow_rotation := false
  settle_seconds := 8
  width := 1920
  height := 1080
  headed := false

/-- Default arguments with the interval bounds swapped (max below min). -/
def badBoundsArgs : Args := { defaultArgs with min_minutes := 10, max_minutes := 5 }

/-- Default arguments with a negative fixed interval. -/
def negFixedArgs : Args := { defaultArgs with fixed_interval := some (-2) }

/-- A concrete configuration with a fixed interval of 3 minutes. -/
def fixedCfg : Config where
  url := "https://www.flightradar24.com/50.00,1.70/5".data
  output_dir := "snapshots/flightradar24".data
  min_minutes := 5
  max_minutes := 10
  page_load_timeout_ms := 60000
  settle_seconds := 8
  width := 1920
  height := 1080
  headless := true
  wait_until := "networkidle"
  wait_for_selector := none
  wait_for_selector_timeout_ms := 5000
  fixed_interval_minutes := some 3
  follow_rotation := false

/-- A concrete configuration with randomized intervals (no fixed override). -/
def randCfg : Config := { fixedCfg with fixed_interval_minutes := none }

/-- Big-endian decimal digits of `n`; the first argument is recursion fuel
(any fuel `≥ n` gives the full representation). -/
def natReprAux : ℕ → ℕ → List Char
  | _, 0 => []
  | 0, _ + 1 => []
  | fuel + 1, n + 1 => natReprAux fuel ((n + 1) / 10) ++ [Nat.digitChar ((n + 1) % 10)]

/-- Decimal rendering of a natural number, as Python's `str`/`format` writes
it (no leading zeros, `"0"` for zero). -/
def natRepr (n : ℕ) : List Char := if n = 0 then ['0'] else natReprAux n n

/-- Zero-padding to a minimum width, as in Python's `:04d` (source line 254)
and `strftime` zero-padded fields (source line 146). -/
def padLeft (w : ℕ) (l : List Char) : List Char := List.replicate (w - l.length) '0' ++ l

/-- Reads back a big-endian decimal digit string as a natural number. -/
def decodeNat (l : List Char) : ℕ := l.foldl (fun a c => 10 * a + (c.toNat - 48)) 0

/-- Python's `:.2f` fixed-point formatting of a rational: round to a whole
number of hundredths, then print with exactly two decimals (and a sign for
negative values, including negative zero).  The model rounds exact
half-hundredth ties upward where CPython rounds the nearest binary double;
the two agree at every value arising in this development. -/
def format2 (q : ℚ) : List Char :=
  let n : ℤ := round (q * 100)
  let sign : List Char := if n < 0 ∨ (n = 0 ∧ q < 0) then ['-'] else []
  sign ++ natRepr (n.natAbs / 100) ++ ['.'] ++ padLeft 2 (natRepr (n.natAbs % 100))

/-- Length consumed by `[+-]?` at the head of `l`. -/
def signLen (l : List Char) : ℕ :=
  match l with
  | c :: _ => if c = '+' ∨ c = '-' then 1 else 0
  | [] => 0

/-- Match `[+-]?\d+` at the head of `l`: returns the consumed length and the
remaining characters.  `\d+` is greedy; no backtracking into it can help
because whatever follows it in the pattern (`.`, `,` or end) excludes a
digit. -/
def matchInt (l : List Char) : Option (ℕ × List Char) :=
  let sk := signLen l
  let l1 := l.drop sk
  let ds := l1.takeWhile Char.isDigit
  if ds.length = 0 then none else some (sk + ds.length, l1.drop ds.length)

/-- Match `\.\d+` at the head of `l` (the body of the optional fraction
group): returns the consumed length and the remaining characters. -/
def matchFrac (l : List Char) : Option (ℕ × List Char) :=
  match l with
  | '.' :: rest =>
    let ds := rest.takeWhile Char.isDigit
    if ds.length = 0 then none else some (1 + ds.length, rest.drop ds.length)
  | _ => none

/-- Match `[+-]?\d+(?:\.\d+)?` greedily at the head of `l` (the `long` group
of `coord_pattern`, source line 192): nothing follows it in the pattern, so
the greedy parse is final. -/
def matchNum (l : List Char) : Option (ℕ × List Char) :=
  match matchInt l with
  | none => none
  | some (k, r) =>
    match matchFrac r with
    | some (fk, r2) => some (k + fk, r2)
    | none => some (k, r)

/-- Continuation of `coord_pattern` after the `lat` group: a literal comma
followed by the `long` group.  Returns `(latLen, longLen)`. -/
def matchComma (latLen : ℕ) (rest : List Char) : Option (ℕ × ℕ) :=
  match rest with
  | ',' :: r2 =>
    match matchNum r2 with
    | some (lk, _) => some (latLen, lk)
    | none => none
  | _ => none

/-- Match the full `coord_pattern`
`(?P<lat>[+-]?\d+(?:\.\d+)?),(?P<long>[+-]?\d+(?:\.\d+)?)` anchored at the
head of `l`, with Python's leftmost-greedy semantics: the optional fraction
of `lat` is tried greedily first and dropped on backtracking.  Returns the
lengths of the `lat` and `long` groups. -/
def matchLatLongAt (l : List Char) : Option (ℕ × ℕ) :=
  match matchInt l with
  | none => none
  | some (ik, r) =>
    match matchFrac r with
    | some (fk, r2) =>
      match matchComma (ik + fk) r2 with
      | some res => some res
      | none => matchComma ik r
    | none => matchComma ik r

/-- `re.search` of `coord_pattern` (source line 196): scan left to right for
the first position where the pattern matches.  Returns
`(start, latLen, longLen)`. -/
def findCoord : List Char → Option (ℕ × ℕ × ℕ)
  | [] => none
  | l@(_ :: rest) =>
    match matchLatLongAt l with
    | some (a, b) => some (0, a, b)
    | none => (findCoord rest).map fun x => (x.1 + 1, x.2.1, x.2.2)

/-- Python `float()` applied to a string of the shape `[+-]?\d+(\.\d+)?`
(the matched `lat`/`long` groups, source lines 199-200), as an exact
rational. -/
def parseUnsigned (l : List Char) : ℚ :=
  let ip := l.takeWhile Char.isDigit
  let rest := l.drop ip.length
  match rest with
  | '.' :: fr => (decodeNat ip : ℚ) + (decodeNat fr : ℚ) / 10 ^ fr.length
  | _ => (decodeNat ip : ℚ)

/-- `float()` including an optional leading sign. -/
def parseNum (l : List Char) : ℚ :=
  match l with
  | '-' :: rest => -(parseUnsigned rest)
  | '+' :: rest => parseUnsigned rest
  | _ => parseUnsigned l

/-- The per-cycle URL substitution (source lines 266-271):
`re.sub(coord_pattern, f"{orig_lat_val:.2f},{current_long:.2f}", orig_url,
count=1)` where `orig_lat_val` was parsed from the first match in the
original URL (source line 199). -/
def applyRotation (url : List Char) (newLong : ℚ) : List Char :=
  match findCoord url with
  | none => url
  | some (i, a, b) =>
    url.take i ++ format2 (parseNum ((url.drop i).take a)) ++ [','] ++ format2 newLong
      ++ url.drop (i + a + 1 + b)

/-- A UTC timestamp as six calendar fields, the inputs of
`datetime.now(timezone.utc).strftime(...)`. -/
structure DateTimeUTC where
  year : ℕ
  month : ℕ
  day : ℕ
  hour : ℕ
  minute : ℕ
  second : ℕ
deriving DecidableEq

/-- `utc_stamp` (source lines 145-146): `strftime("%Y%m%d_%H%M%SZ")` with
zero-padded fields. -/
def utc_stamp (t : DateTimeUTC) : List Char :=
  padLeft 4 (natRepr t.year) ++ padLeft 2 (natRepr t.month) ++ padLeft 2 (natRepr t.day)
    ++ ['_'] ++ padLeft 2 (natRepr t.hour) ++ padLeft 2 (natRepr t.minute)
    ++ padLeft 2 (natRepr t.second) ++ ['Z']

/-- The output path chosen each cycle (source line 254):
`f"fr24_{stamp}_{cycle:04d}.png"`. -/
def snapshotFileName (t : DateTimeUTC) (cycle : ℕ) : List Char :=
  "fr24_".data ++ utc_stamp t ++ ['_'] ++ padLeft 4 (natRepr cycle) ++ ".png".data

/-- `Path.mkdir(parents=True, exist_ok=True)` (source line 169) over a
filesystem modelled as the list of existing directories: an existing
directory is left alone without error when `existOk` is set, a missing one is
created (the `parents=True` creation of missing ancestors is folded into the
success case). -/
def mkdirModel (fs : List (List Char)) (dir : List Char) (existOk : Bool) :
    Except String (List (List Char)) :=
  if dir ∈ fs then
    if existOk then Except.ok fs else Except.error "FileExistsError"
  else Except.ok (dir :: fs)

/-- The default target URL (source line 20). -/
def urlDefault : List Char := "https://www.flightradar24.com/50.00,1.70/5".data

/-- The default URL with a three-decimal latitude. -/
def urlLat506 : List Char := "https://www.flightradar24.com/50.006,1.70/5".data

/-- Field bounds guaranteed by Python's `datetime` (year at most 9999, the
other fields two digits); the timestamp model zero-pads to these widths. -/
def validDT (t : DateTimeUTC) : Prop :=
  t.year < 10 ^ 4 ∧ t.month < 10 ^ 2 ∧ t.day < 10 ^ 2
    ∧ t.hour < 10 ^ 2 ∧ t.minute < 10 ^ 2 ∧ t.second < 10 ^ 2

/-- Outcome of a browser-driver call: success, a Playwright `TimeoutError`
(caught at source lines 276 and 292), or any other exception (uncaught there,
so it propagates). -/
inductive NavOutcome where
  | ok
  | timeout
  | fail (msg : String)
deriving DecidableEq

/-- `page.goto` wrapped in `try/except PlaywrightTimeoutError`
(source lines 274-281): a timeout prints a warning and falls through; any
other exception propagates. -/
def gotoStep (nav : NavOutcome) : Except String (List Event) :=
  match nav with
  | NavOutcome.ok => Except.ok [Event.goto]
  | NavOutcome.timeout => Except.ok [Event.goto, Event.warnNavTimeout]
  | NavOutcome.fail e => Except.error e

/-- The optional `page.wait_for_selector` wrapped in
`try/except PlaywrightTimeoutError` (source lines 283-297). -/
def selectorStep (cfg : Config) (sel : NavOutcome) : Except String (List Event) :=
  match cfg.wait_for_selector with
  | none => Except.ok []
  | some _ =>
    match sel with
    | NavOutcome.ok => Except.ok [Event.waitSelector]
    | NavOutcome.timeout => Except.ok [Event.waitSelector, Event.warnSelectorTimeout]
    | NavOutcome.fail e => Except.error e

/-- The settle sleep, performed only when `settle_seconds > 0`
(source lines 299-300). -/
def settleStep (cfg : Config) : List Event :=
  if 0 < cfg.settle_seconds then [Event.settleSleep] else []

/-- One cycle from navigation to capture (source lines 273-311): navigate,
optionally wait for the selector, settle, take the screenshot, close the
context.  An `Except.error` models an exception aborting the cycle (and the
run); timeouts never produce one. -/
def cycleCapture (cfg : Config) (nav sel : NavOutcome) : Except String (List Event) :=
  match gotoStep nav with
  | Except.error e => Except.error e
  | Except.ok e1 =>
    match selectorStep cfg sel with
    | Except.error e => Except.error e
    | Except.ok e2 =>
      Except.ok (e1 ++ e2 ++ settleStep cfg ++ [Event.screenshot, Event.closeContext])

/-- The shutdown flag at wall-clock time `t`: `should_stop` is set by the
signal handler at time `s` (monotone false-to-true, never reset;
source lines 171-179). -/
def flagAt (stopAt : Option ℚ) (t : ℚ) : Bool :=
  match stopAt with
  | some s => decide (s ≤ t)
  | none => false

/-- The inter-cycle sleep loop (source lines 329-332):
`while time.time() < wake_at: if should_stop: raise StopLoop;
time.sleep(min(1.0, wake_at - time.time()))`.  Time is threaded explicitly
and advances by exactly the slept amount; `fuel` bounds the number of
iterations (the loop itself terminates because time strictly advances toward
`wakeAt`).  Returns `(exit time, stopped?, slept increments)`; `stopped?` is
`true` when the loop ended by `raise StopLoop`. -/
def sleepPhase (stopAt : Option ℚ) (wakeAt : ℚ) : ℚ → ℕ → Option (ℚ × Bool × List ℚ)
  | _, 0 => none
  | t, fuel + 1 =>
    if t < wakeAt then
      if flagAt stopAt t then some (t, true, [])
      else
        match sleepPhase stopAt wakeAt (t + min 1 (wakeAt - t)) fuel with
        | some (te, st, ds) => some (te, st, min 1 (wakeAt - t) :: ds)
        | none => none
    else some (t, false, [])

/-- What follows the sleep loop: if `StopLoop` was raised, the handler prints
`"Stopped."` and the `finally` block closes the browser exactly once
(source lines 333-339), after which `main` returns 0 and the process exits
with success (source lines 342-349); otherwise the loop body runs the next
cycle and no exit code exists yet. -/
def afterSleep (stopped : Bool) (nextCycle : List Event) : List Event × Option ℤ :=
  if stopped then ([Event.printStopped, Event.closeBrowser], some 0)
  else (nextCycle, none)

/-- C1: when rotation-follow is active, the effective longitude at elapsed
wall-clock time `t` seconds since browser launch is
`((original_longitude - 15 * (t / 3600) + 180) mod 360) - 180`, the latitude
fed to the URL is the original latitude, the computation depends only on the
absolute elapsed time `t` (no per-cycle increments), and at the original
coordinate (50.00, 1.70) the longitude is -58.30 after 4 hours and 166.70
after 13 hours. -/
theorem rotation_follow_longitude :
    (∀ origLong t : ℚ, rotationLong origLong t = wrap (origLong - 15 * (t / 3600)))
    ∧ (∀ origLat t : ℚ, rotationLat origLat t = origLat)
    ∧ rotationLong (17/10) (4 * 3600) = -583/10
    ∧ rotationLong (17/10) (13 * 3600) = 1667/10 := by
  refine ⟨fun origLong t => rfl, fun origLat t => rfl, ?_, ?_⟩
  · norm_num [rotationLong, pymod]
  · norm_num [rotationLong, pymod]

/-- C2: the wrap function `wrap x = ((x + 180) mod 360) - 180` is total on the
rationals, idempotent, and always lands in the half-open interval
`[-180, 180)`. -/
theorem wrap_total_idempotent (x : ℚ) :
    wrap (wrap x) = wrap x ∧ -180 ≤ wrap x ∧ wrap x < 180 :=
  ⟨wrap_idem x, (wrap_mem x).1, (wrap_mem x).2⟩

/-- C3: if a fixed interval is configured, `choose_wait_seconds` returns
exactly `fixed_interval_minutes * 60` seconds, regardless of the random
oracle; otherwise it returns the value of a fresh uniform draw over
`[min_minutes * 60, max_minutes * 60]`, which lies in that interval whenever
the oracle meets the `random.uniform` contract; the cycle-`n` wait depends
only on the cycle-`n` draw (independence across cycles). -/
theorem interval_selection_spec (cfg : Config) (u : ℚ → ℚ → ℚ) :
    (∀ f, cfg.fixed_interval_minutes = some f → choose_wait_seconds cfg u = f * 60)
    ∧ (cfg.fixed_interval_minutes = none →
        choose_wait_seconds cfg u = u (cfg.min_minutes * 60) (cfg.max_minutes * 60)
        ∧ ((∀ a b : ℚ, a ≤ b → a ≤ u a b ∧ u a b ≤ b) →
            cfg.min_minutes ≤ cfg.max_minutes →
            cfg.min_minutes * 60 ≤ choose_wait_seconds cfg u
            ∧ choose_wait_seconds cfg u ≤ cfg.max_minutes * 60))
    ∧ (∀ d1 d2 : ℕ → ℚ → ℚ → ℚ, ∀ n : ℕ, d1 n = d2 n →
        choose_wait_at cfg d1 n = choose_wait_at cfg d2 n) := by
  refine ⟨?_, ?_, ?_⟩
  · intro f hf
    simp [choose_wait_seconds, hf]
  · intro hnone
    refine ⟨by simp [choose_wait_seconds, hnone], ?_⟩
    intro hu hle
    have h := hu (cfg.min_minutes * 60) (cfg.max_minutes * 60) (by linarith)
    simpa [choose_wait_seconds, hnone] using h
  · intro d1 d2 n h
    simp [choose_wait_at, choose_wait_seconds, h]

/-- Closed-input check of C3: a fixed 3-minute interval yields 180 seconds,
and with bounds 5 and 10 minutes a contract-satisfying draw lands in
[300, 600]. -/
theorem interval_selection_spec_witness :
    choose_wait_seconds fixedCfg (fun a _ => a) = 3 * 60
    ∧ 300 ≤ choose_wait_seconds randCfg (fun a _ => a)
    ∧ choose_wait_seconds randCfg (fun a _ => a) ≤ 600 := by
  refine ⟨(interval_selection_spec fixedCfg (fun a _ => a)).1 3 rfl, ?_⟩
  have h := ((interval_selection_spec randCfg (fun a _ => a)).2.1 rfl).2
      (fun a b hab => ⟨le_refl a, hab⟩) (by norm_num [randCfg, fixedCfg])
  have hmin : randCfg.min_minutes = 5 := rfl
  have hmax : randCfg.max_minutes = 10 := rfl
  rw [hmin, hmax] at h
  exact ⟨by linarith [h.1], by linarith [h.2]⟩

/-- C4: a configuration with `max_minutes < min_minutes` or a non-positive
bound is rejected by `parse_args` with one of the two descriptive parser
error messages, and the model of `main` performs no action at all: the
browser is never launched and the output directory is never created. -/
theorem invalid_bounds_fail_fast (a : Args)
    (h : a.max_minutes < a.min_minutes ∨ a.min_minutes ≤ 0 ∨ a.max_minutes ≤ 0) :
    (mainStartModel a).2 = []
    ∧ Event.browserLaunch ∉ (mainStartModel a).2
    ∧ Event.mkdirOutput ∉ (mainStartModel a).2
    ∧ ∃ e, (mainStartModel a).1 = Except.error e
        ∧ (e = "--min-minutes and --max-minutes must be greater than zero."
           ∨ e = "--max-minutes must be greater than or equal to --min-minutes.") := by
  by_cases hb : a.min_minutes ≤ 0 ∨ a.max_minutes ≤ 0
  · refine ⟨?_, ?_, ?_, ?_⟩ <;>
      simp [mainStartModel, parse_args, hb]
  · have hlt : a.max_minutes < a.min_minutes := by
      rcases h with h | h | h
      · exact h
      · exact absurd (Or.inl h) hb
      · exact absurd (Or.inr h) hb
    refine ⟨?_, ?_, ?_, ?_⟩ <;>
      simp [mainStartModel, parse_args, hb, hlt]

/-- Closed-input check of C4 at swapped bounds (min 10, max 5). -/
theorem invalid_bounds_fail_fast_witness :
    (mainStartModel badBoundsArgs).2 = []
    ∧ Event.browserLaunch ∉ (mainStartModel badBoundsArgs).2
    ∧ Event.mkdirOutput ∉ (mainStartModel badBoundsArgs).2
    ∧ ∃ e, (mainStartModel badBoundsArgs).1 = Except.error e
        ∧ (e = "--min-minutes and --max-minutes must be greater than zero."
           ∨ e = "--max-minutes must be greater than or equal to --min-minutes.") :=
  invalid_bounds_fail_fast badBoundsArgs
    (Or.inl (by norm_num [badBoundsArgs, defaultArgs]))

/-- C10: validation looks only at `min_minutes` and `max_minutes`; any value
of the fixed interval, including zero and negative values, passes `parse_args`
unchanged, and `choose_wait_seconds` then returns `fixed * 60` — a
non-positive wait when the fixed interval is non-positive — without error. -/
theorem fixed_interval_unchecked (a : Args) (f : ℚ)
    (hf : a.fixed_interval = some f)
    (h1 : 0 < a.min_minutes) (h2 : a.min_minutes ≤ a.max_minutes) :
    ∃ cfg, parse_args a = Except.ok cfg
      ∧ cfg.fixed_interval_minutes = some f
      ∧ (∀ u, choose_wait_seconds cfg u = f * 60)
      ∧ (f ≤ 0 → ∀ u, choose_wait_seconds cfg u ≤ 0) := by
  have hb : ¬(a.min_minutes ≤ 0 ∨ a.max_minutes ≤ 0) := by
    push_neg
    constructor <;> linarith
  have hlt : ¬ a.max_minutes < a.min_minutes := not_lt.mpr h2
  refine ⟨configOf a, by simp [parse_args, hb, hlt], hf, ?_, ?_⟩
  · intro u
    simp [choose_wait_seconds, configOf, hf]
  · intro hle u
    simp only [choose_wait_seconds, configOf, hf]
    linarith

/-- Closed-input check of C10 at a fixed interval of -2 minutes. -/
theorem fixed_interval_unchecked_witness :
    ∃ cfg, parse_args negFixedArgs = Except.ok cfg
      ∧ cfg.fixed_interval_minutes = some (-2)
      ∧ (∀ u, choose_wait_seconds cfg u = -2 * 60)
      ∧ ((-2 : ℚ) ≤ 0 → ∀ u, choose_wait_seconds cfg u ≤ 0) :=
  fixed_interval_unchecked negFixedArgs (-2) rfl
    (by norm_num [negFixedArgs, defaultArgs])
    (by norm_num [negFixedArgs, defaultArgs])

theorem digitChar_toNat_sub (d : ℕ) (h : d < 10) : (Nat.digitChar d).toNat - 48 = d := by
  interval_cases d <;> decide

theorem foldl_replicate_zero (k a : ℕ) :
    (List.replicate k '0').foldl (fun a c => 10 * a + (c.toNat - 48)) a = a * 10 ^ k := by
  induction k generalizing a with
  | zero => simp
  | succ k ih =>
    rw [List.replicate_succ, List.foldl_cons, ih]
    show (10 * a + ('0'.toNat - 48)) * 10 ^ k = a * 10 ^ (k + 1)
    rw [show '0'.toNat - 48 = 0 from rfl]
    ring

theorem natReprAux_decode (fuel : ℕ) :
    ∀ (n a : ℕ), n ≤ fuel →
      (natReprAux fuel n).foldl (fun a c => 10 * a + (c.toNat - 48)) a
        = a * 10 ^ (natReprAux fuel n).length + n := by
  induction fuel with
  | zero =>
    intro n a hn
    interval_cases n
    simp [natReprAux]
  | succ fuel ih =>
    intro n a hn
    match n with
    | 0 => simp [natReprAux]
    | m + 1 =>
      rw [show natReprAux (fuel + 1) (m + 1)
            = natReprAux fuel ((m + 1) / 10) ++ [Nat.digitChar ((m + 1) % 10)] from rfl]
      rw [List.foldl_append, List.foldl_cons, List.foldl_nil]
      have hdiv : (m + 1) / 10 ≤ fuel := by
        have h1 : (m + 1) / 10 < m + 1 := Nat.div_lt_self (Nat.succ_pos m) (by norm_num)
        omega
      rw [ih ((m + 1) / 10) a hdiv]
      rw [digitChar_toNat_sub ((m + 1) % 10) (Nat.mod_lt _ (by norm_num))]
      rw [List.length_append, List.length_singleton]
      have hdm : 10 * ((m + 1) / 10) + (m + 1) % 10 = m + 1 := Nat.div_add_mod (m + 1) 10
      ring_nf
      omega

theorem decodeNat_natRepr (n : ℕ) : decodeNat (natRepr n) = n := by
  by_cases h : n = 0
  · subst h; decide
  · unfold natRepr decodeNat
    rw [if_neg h]
    rw [natReprAux_decode n n 0 le_rfl]
    ring

theorem decodeNat_padLeft (w n : ℕ) : decodeNat (padLeft w (natRepr n)) = n := by
  unfold padLeft decodeNat
  rw [List.foldl_append, foldl_replicate_zero]
  have : (0 : ℕ) * 10 ^ (w - (natRepr n).length) = 0 := by ring
  rw [this]
  exact decodeNat_natRepr n

theorem padRepr_inj (w m n : ℕ) (h : padLeft w (natRepr m) = padLeft w (natRepr n)) :
    m = n := by
  have := congrArg decodeNat h
  rwa [decodeNat_padLeft, decodeNat_padLeft] at this

theorem natReprAux_length (fuel : ℕ) :
    ∀ (n k : ℕ), n ≤ fuel → n < 10 ^ k → (natReprAux fuel n).length ≤ k := by
  induction fuel with
  | zero =>
    intro n k hn _
    interval_cases n
    simp [natReprAux]
  | succ fuel ih =>
    intro n k hn hk
    match n with
    | 0 => simp [natReprAux]
    | m + 1 =>
      match k with
      | 0 => omega
      | k + 1 =>
        rw [show natReprAux (fuel + 1) (m + 1)
              = natReprAux fuel ((m + 1) / 10) ++ [Nat.digitChar ((m + 1) % 10)] from rfl]
        rw [List.length_append, List.length_singleton]
        have hdiv : (m + 1) / 10 ≤ fuel := by
          have h1 : (m + 1) / 10 < m + 1 := Nat.div_lt_self (Nat.succ_pos m) (by norm_num)
          omega
        have hlt : (m + 1) / 10 < 10 ^ k := by
          rw [Nat.div_lt_iff_lt_mul (by norm_num : (0:ℕ) < 10)]
          calc m + 1 < 10 ^ (k + 1) := hk
            _ = 10 ^ k * 10 := by ring
        have := ih ((m + 1) / 10) k hdiv hlt
        omega

theorem natRepr_length_le (n k : ℕ) (h1 : n < 10 ^ k) (h2 : 1 ≤ k) :
    (natRepr n).length ≤ k := by
  by_cases h : n = 0
  · subst h; simpa [natRepr] using h2
  · unfold natRepr
    rw [if_neg h]
    exact natReprAux_length n n k le_rfl h1

theorem padLeft_length (w : ℕ) (l : List Char) (h : l.length ≤ w) :
    (padLeft w l).length = w := by
  simp [padLeft]
  omega

theorem utc_stamp_length (t : DateTimeUTC) (h : validDT t) : (utc_stamp t).length = 16 := by
  obtain ⟨hy, hmo, hd, hh, hmi, hs⟩ := h
  unfold utc_stamp
  simp only [List.length_append, List.length_singleton]
  rw [padLeft_length 4 _ (natRepr_length_le _ _ hy (by norm_num)),
    padLeft_length 2 _ (natRepr_length_le _ _ hmo (by norm_num)),
    padLeft_length 2 _ (natRepr_length_le _ _ hd (by norm_num)),
    padLeft_length 2 _ (natRepr_length_le _ _ hh (by norm_num)),
    padLeft_length 2 _ (natRepr_length_le _ _ hmi (by norm_num)),
    padLeft_length 2 _ (natRepr_length_le _ _ hs (by norm_num))]

theorem findCoord_spec (l : List Char) :
    ∀ i a b, findCoord l = some (i, a, b) →
      matchLatLongAt (List.drop i l) = some (a, b)
      ∧ ∀ j, j < i → matchLatLongAt (List.drop j l) = none := by
  induction l with
  | nil =>
    intro i a b h
    simp [findCoord] at h
  | cons c rest ih =>
    intro i a b h
    simp only [findCoord] at h
    cases hm : matchLatLongAt (c :: rest) with
    | some p =>
      rw [hm] at h
      obtain ⟨p1, p2⟩ := p
      simp only [Option.some.injEq, Prod.mk.injEq] at h
      obtain ⟨hi, ha, hb⟩ := h
      subst hi; subst ha; subst hb
      refine ⟨by simpa using hm, ?_⟩
      intro j hj
      omega
    | none =>
      rw [hm] at h
      cases hf : findCoord rest with
      | none => rw [hf] at h; simp at h
      | some x =>
        rw [hf] at h
        obtain ⟨i', a', b'⟩ := x
        simp only [Option.map_some', Option.some.injEq, Prod.mk.injEq] at h
        obtain ⟨hi, ha, hb⟩ := h
        subst hi; subst ha; subst hb
        have spec := ih i' a' b' hf
        constructor
        · simpa [List.drop_succ_cons] using spec.1
        · intro j hj
          match j with
          | 0 => simpa using hm
          | j' + 1 =>
            rw [List.drop_succ_cons]
            exact spec.2 j' (by omega)

/-- C5 counterexample: the substitution does not leave the latitude
unchanged.  With a URL whose latitude is `50.006` and new longitude -58.30,
the code rewrites the latitude through `float()` and `:.2f` formatting,
producing `50.01`: the produced URL differs from the one the claim predicts
(latitude text preserved). -/
theorem latitude_reformatted :
    applyRotation urlLat506 (-583/10)
      = "https://www.flightradar24.com/50.01,-58.30/5".data
    ∧ applyRotation urlLat506 (-583/10)
      ≠ "https://www.flightradar24.com/50.006,-58.30/5".data := by
  have h1 : applyRotation urlLat506 (-583/10)
      = "https://www.flightradar24.com/50.01,-58.30/5".data := by
    unfold applyRotation
    rw [show findCoord urlLat506 = some (30, 6, 4) from by decide]
    simp only []
    rw [show parseNum ((urlLat506.drop 30).take 6)
          = ((decodeNat "50".data : ℚ) + (decodeNat "006".data : ℚ) / 10 ^ 3) from rfl]
    rw [show decodeNat "50".data = 50 from by decide,
      show decodeNat "006".data = 6 from by decide]
    rw [show format2 (((50:ℕ):ℚ) + ((6:ℕ):ℚ) / 10 ^ 3) = "50.01".data from by
      unfold format2
      rw [show round ((((50:ℕ):ℚ) + ((6:ℕ):ℚ) / 10 ^ 3) * 100) = 5001 from by
        rw [round_eq]; push_cast; norm_num]
      decide]
    rw [show format2 (-583/10 : ℚ) = "-58.30".data from by
      unfold format2
      rw [show round ((-583/10 : ℚ) * 100) = -5830 from by rw [round_eq]; norm_num]
      decide]
    decide
  exact ⟨h1, by rw [h1]; decide⟩

/-- C5 (amended): the substitution rewrites exactly the first substring
matching the decimal-degree lat,long pattern — every position to its left
admits no match — and leaves every character outside that substring
unchanged; the replaced text is the originally-parsed latitude formatted to
two decimal places (hence textually unchanged only when already in
two-decimal form), a comma, and the new longitude formatted to two decimal
places. -/
theorem coord_substitution_first_match (url : List Char) (L : ℚ) (i a b : ℕ)
    (h : findCoord url = some (i, a, b)) :
    applyRotation url L
      = url.take i ++ format2 (parseNum ((url.drop i).take a)) ++ [',']
        ++ format2 L ++ url.drop (i + a + 1 + b)
    ∧ matchLatLongAt (url.drop i) = some (a, b)
    ∧ (∀ j, j < i → matchLatLongAt (url.drop j) = none) := by
  refine ⟨?_, (findCoord_spec url i a b h).1, (findCoord_spec url i a b h).2⟩
  simp [applyRotation, h]

/-- Closed-input check of C5 (amended) on the default URL: the claim's own
example, `.../50.00,1.70/5` with new longitude -58.30 becomes
`.../50.00,-58.30/5`, and no earlier position matches the pattern. -/
theorem coord_substitution_first_match_witness :
    applyRotation urlDefault (-583/10)
      = "https://www.flightradar24.com/50.00,-58.30/5".data
    ∧ (∀ j, j < 30 → matchLatLongAt (urlDefault.drop j) = none) := by
  have h := coord_substitution_first_match urlDefault (-583/10) 30 5 4 (by decide)
  refine ⟨?_, h.2.2⟩
  rw [h.1]
  rw [show parseNum ((urlDefault.drop 30).take 5)
        = ((decodeNat "50".data : ℚ) + (decodeNat "00".data : ℚ) / 10 ^ 2) from rfl]
  rw [show decodeNat "50".data = 50 from by decide,
    show decodeNat "00".data = 0 from by decide]
  rw [show format2 (((50:ℕ):ℚ) + ((0:ℕ):ℚ) / 10 ^ 2) = "50.00".data from by
    unfold format2
    rw [show round ((((50:ℕ):ℚ) + ((0:ℕ):ℚ) / 10 ^ 2) * 100) = 5000 from by
      rw [round_eq]; push_cast; norm_num]
    decide]
  rw [show format2 (-583/10 : ℚ) = "-58.30".data from by
    unfold format2
    rw [show round ((-583/10 : ℚ) * 100) = -5830 from by rw [round_eq]; norm_num]
    decide]
  decide

/-- C8 counterexample: the effective longitude does not strictly decrease as
wall-clock time advances.  With the default coordinate (50.00, 1.70), at
elapsed time 4 h the longitude is -58.30 while at the later elapsed time 13 h
it is 166.70: time advanced but the wrapped longitude increased (the
un-normalized value crossed the -180 boundary between the two samples). -/
theorem longitude_not_strictly_decreasing :
    (4 * 3600 : ℚ) < 13 * 3600
    ∧ rotationLong (17/10) (4 * 3600) < rotationLong (17/10) (13 * 3600) := by
  constructor
  · norm_num
  · norm_num [rotationLong, pymod]

/-- C8 (amended): the un-normalized longitude `orig - 15 * (t / 3600)`
strictly decreases as wall-clock time advances, independent of sampling
jitter (it is a function of absolute elapsed time only); the effective
longitude is its wrap into `[-180, 180)`, differing from it by an integer
multiple of 360 — so it decreases except at wrap boundary crossings, where it
jumps up by a full 360 degrees. -/
theorem longitude_westward_drift (origLong t1 t2 : ℚ) (h : t1 < t2) :
    unwrappedLong origLong t2 < unwrappedLong origLong t1
    ∧ (∀ t, rotationLong origLong t = wrap (unwrappedLong origLong t))
    ∧ (∀ t, ∃ k : ℤ, rotationLong origLong t - unwrappedLong origLong t = 360 * k)
    ∧ (∀ t, -180 ≤ rotationLong origLong t ∧ rotationLong origLong t < 180) := by
  refine ⟨?_, fun t => rfl, ?_, ?_⟩
  · unfold unwrappedLong
    have : t1 / 3600 < t2 / 3600 := by linarith
    linarith
  · intro t
    refine ⟨-⌊(unwrappedLong origLong t + 180) / 360⌋, ?_⟩
    unfold rotationLong unwrappedLong pymod
    push_cast
    ring
  · intro t
    have hm := wrap_mem (unwrappedLong origLong t)
    have he : rotationLong origLong t = wrap (unwrappedLong origLong t) := rfl
    rw [he]
    exact hm

/-- Closed-input check of C8 (amended) at the default coordinate between
elapsed times 4 h and 13 h. -/
theorem longitude_westward_drift_witness :
    unwrappedLong (17/10) (13 * 3600) < unwrappedLong (17/10) (4 * 3600)
    ∧ (∀ t, rotationLong (17/10) t = wrap (unwrappedLong (17/10) t))
    ∧ (∀ t, ∃ k : ℤ, rotationLong (17/10) t - unwrappedLong (17/10) t = 360 * k)
    ∧ (∀ t, -180 ≤ rotationLong (17/10) t ∧ rotationLong (17/10) t < 180) :=
  longitude_westward_drift (17/10) (4 * 3600) (13 * 3600) (by norm_num)

/-- C6: a navigation timeout is a warning, not an abort: the cycle proceeds
through the selector wait (when configured), the settle sleep (when
positive), and the screenshot, producing the cycle's artifact; the cycle
result is a success, never an error, whenever the remaining driver calls do
not themselves raise a non-timeout exception. -/
theorem nav_timeout_not_fatal (cfg : Config) (sel : NavOutcome)
    (hsel : ∀ e, sel ≠ NavOutcome.fail e) :
    ∃ tr, cycleCapture cfg NavOutcome.timeout sel = Except.ok tr
      ∧ Event.warnNavTimeout ∈ tr
      ∧ Event.screenshot ∈ tr
      ∧ (cfg.wait_for_selector.isSome → Event.waitSelector ∈ tr)
      ∧ (0 < cfg.settle_seconds → Event.settleSleep ∈ tr) := by
  cases sel with
  | fail e => exact absurd rfl (hsel e)
  | ok =>
    cases hw : cfg.wait_for_selector with
    | none =>
      refine ⟨[Event.goto, Event.warnNavTimeout] ++ [] ++ settleStep cfg
          ++ [Event.screenshot, Event.closeContext],
        by simp [cycleCapture, gotoStep, selectorStep, hw], ?_, ?_, ?_, ?_⟩ <;>
        by_cases hs : 0 < cfg.settle_seconds <;>
        simp [settleStep, hs, hw]
    | some s =>
      refine ⟨[Event.goto, Event.warnNavTimeout] ++ [Event.waitSelector] ++ settleStep cfg
          ++ [Event.screenshot, Event.closeContext],
        by simp [cycleCapture, gotoStep, selectorStep, hw], ?_, ?_, ?_, ?_⟩ <;>
        by_cases hs : 0 < cfg.settle_seconds <;>
        simp [settleStep, hs, hw]
  | timeout =>
    cases hw : cfg.wait_for_selector with
    | none =>
      refine ⟨[Event.goto, Event.warnNavTimeout] ++ [] ++ settleStep cfg
          ++ [Event.screenshot, Event.closeContext],
        by simp [cycleCapture, gotoStep, selectorStep, hw], ?_, ?_, ?_, ?_⟩ <;>
        by_cases hs : 0 < cfg.settle_seconds <;>
        simp [settleStep, hs, hw]
    | some s =>
      refine ⟨[Event.goto, Event.warnNavTimeout]
          ++ [Event.waitSelector, Event.warnSelectorTimeout] ++ settleStep cfg
          ++ [Event.screenshot, Event.closeContext],
        by simp [cycleCapture, gotoStep, selectorStep, hw], ?_, ?_, ?_, ?_⟩ <;>
        by_cases hs : 0 < cfg.settle_seconds <;>
        simp [settleStep, hs, hw]

/-- Closed-input check of C6 with the default-derived configuration (no
selector, settle 8 s) and a successful selector phase. -/
theorem nav_timeout_not_fatal_witness :
    ∃ tr, cycleCapture fixedCfg NavOutcome.timeout NavOutcome.ok = Except.ok tr
      ∧ Event.warnNavTimeout ∈ tr
      ∧ Event.screenshot ∈ tr
      ∧ (fixedCfg.wait_for_selector.isSome → Event.waitSelector ∈ tr)
      ∧ (0 < fixedCfg.settle_seconds → Event.settleSleep ∈ tr) :=
  nav_timeout_not_fatal fixedCfg NavOutcome.ok (fun e h => by cases h)

theorem sleepPhase_increments (stopAt : Option ℚ) (wakeAt : ℚ) (fuel : ℕ) :
    ∀ (t te : ℚ) (st : Bool) (ds : List ℚ),
      sleepPhase stopAt wakeAt t fuel = some (te, st, ds) → ∀ d ∈ ds, 0 < d ∧ d ≤ 1 := by
  induction fuel with
  | zero =>
    intro t te st ds h
    simp [sleepPhase] at h
  | succ fuel ih =>
    intro t te st ds h
    simp only [sleepPhase] at h
    by_cases h1 : t < wakeAt
    · rw [if_pos h1] at h
      by_cases h2 : flagAt stopAt t = true
      · rw [if_pos h2] at h
        simp only [Option.some.injEq, Prod.mk.injEq] at h
        obtain ⟨-, -, hds⟩ := h
        subst hds
        intro d hd
        simp at hd
      · rw [if_neg h2] at h
        cases hrec : sleepPhase stopAt wakeAt (t + min 1 (wakeAt - t)) fuel with
        | none => rw [hrec] at h; simp at h
        | some trip =>
          rw [hrec] at h
          obtain ⟨te', st', ds'⟩ := trip
          simp only [Option.some.injEq, Prod.mk.injEq] at h
          obtain ⟨-, -, hds⟩ := h
          subst hds
          intro d hd
          rcases List.mem_cons.mp hd with hd | hd
          · subst hd
            constructor
            · exact lt_min (by norm_num) (by linarith)
            · exact min_le_left _ _
          · exact ih _ _ _ _ hrec d hd
    · rw [if_neg h1] at h
      simp only [Option.some.injEq, Prod.mk.injEq] at h
      obtain ⟨-, -, hds⟩ := h
      subst hds
      intro d hd
      simp at hd

theorem sleepPhase_stop_le (s wakeAt : ℚ) (fuel : ℕ) :
    ∀ (t te : ℚ) (st : Bool) (ds : List ℚ), t ≤ s + 1 →
      sleepPhase (some s) wakeAt t fuel = some (te, st, ds) → te ≤ s + 1 := by
  induction fuel with
  | zero =>
    intro t te st ds ht h
    simp [sleepPhase] at h
  | succ fuel ih =>
    intro t te st ds ht h
    simp only [sleepPhase] at h
    by_cases h1 : t < wakeAt
    · rw [if_pos h1] at h
      by_cases h2 : flagAt (some s) t = true
      · rw [if_pos h2] at h
        simp only [Option.some.injEq, Prod.mk.injEq] at h
        obtain ⟨hte, -, -⟩ := h
        subst hte
        exact ht
      · rw [if_neg h2] at h
        have hts : ¬ s ≤ t := by
          simpa [flagAt] using h2
        cases hrec : sleepPhase (some s) wakeAt (t + min 1 (wakeAt - t)) fuel with
        | none => rw [hrec] at h; simp at h
        | some trip =>
          rw [hrec] at h
          obtain ⟨te', st', ds'⟩ := trip
          simp only [Option.some.injEq, Prod.mk.injEq] at h
          obtain ⟨hte, -, -⟩ := h
          subst hte
          have hstep : t + min 1 (wakeAt - t) ≤ s + 1 := by
            have : min 1 (wakeAt - t) ≤ 1 := min_le_left _ _
            push_neg at hts
            linarith
          exact ih _ _ _ _ hstep hrec
    · rw [if_neg h1] at h
      simp only [Option.some.injEq, Prod.mk.injEq] at h
      obtain ⟨hte, -, -⟩ := h
      subst hte
      exact ht

/-- C7: the inter-cycle wait sleeps in increments of at most one second with
the shutdown flag checked before every increment; once the flag is set the
loop exits within one further increment (`te ≤ s + 1`); if the flag is
already set when the loop is entered, no increment is slept at all and the
loop stops immediately; and a stop leads to no further navigation or
capture, exactly one browser cleanup, and exit status 0. -/
theorem shutdown_prompt_clean_exit (s wakeAt t0 : ℚ) (fuel : ℕ)
    (te : ℚ) (st : Bool) (ds : List ℚ)
    (h : sleepPhase (some s) wakeAt t0 fuel = some (te, st, ds))
    (hs : t0 ≤ s) :
    (∀ d ∈ ds, 0 < d ∧ d ≤ 1)
    ∧ te ≤ s + 1
    ∧ (s ≤ t0 → t0 < wakeAt → st = true ∧ te = t0 ∧ ds = [])
    ∧ (st = true → ∀ next,
        Event.goto ∉ (afterSleep st next).1
        ∧ Event.screenshot ∉ (afterSleep st next).1
        ∧ (afterSleep st next).1.count Event.closeBrowser = 1
        ∧ (afterSleep st next).2 = some 0) := by
  refine ⟨sleepPhase_increments _ _ _ _ _ _ _ h,
    sleepPhase_stop_le s wakeAt fuel t0 te st ds (by linarith) h, ?_, ?_⟩
  · intro hst0 hlt
    cases fuel with
    | zero => simp [sleepPhase] at h
    | succ fuel =>
      simp only [sleepPhase] at h
      rw [if_pos hlt] at h
      rw [if_pos (by simpa [flagAt] using hst0)] at h
      simp only [Option.some.injEq, Prod.mk.injEq] at h
      obtain ⟨hte, hst, hds⟩ := h
      exact ⟨hst.symm, hte.symm, hds.symm⟩
  · intro hst next
    subst hst
    simp [afterSleep]

/-- Closed-input check of C7: flag raised at time 0, loop entered at time 0
with a 10-second wait — the loop stops immediately with no increment. -/
theorem shutdown_prompt_clean_exit_witness :
    (∀ d ∈ ([] : List ℚ), 0 < d ∧ d ≤ 1)
    ∧ (0 : ℚ) ≤ 0 + 1
    ∧ ((0 : ℚ) ≤ 0 → (0 : ℚ) < 10 → true = true ∧ (0 : ℚ) = 0 ∧ ([] : List ℚ) = [])
    ∧ (true = true → ∀ next,
        Event.goto ∉ (afterSleep true next).1
        ∧ Event.screenshot ∉ (afterSleep true next).1
        ∧ ((afterSleep true next).1.count Event.closeBrowser = 1)
        ∧ (afterSleep true next).2 = some 0) :=
  shutdown_prompt_clean_exit 0 10 0 1 0 true []
    (by
      simp only [sleepPhase]
      rw [if_pos (by norm_num : (0:ℚ) < 10)]
      rw [if_pos (by simp [flagAt] : flagAt (some (0:ℚ)) 0 = true)])
    (le_refl 0)

/-- C9: across a run the snapshot filenames
`fr24_<UTC stamp>_<zero-padded cycle>.png` are pairwise distinct for distinct
cycle counters (so no file is overwritten), regardless of the timestamps; and
the `mkdir(parents=True, exist_ok=True)` model always succeeds, whether or
not the output directory already exists, and the directory exists
afterwards. -/
theorem snapshot_filenames_unique (t1 t2 : DateTimeUTC) (c1 c2 : ℕ)
    (h1 : validDT t1) (h2 : validDT t2) (hc : c1 ≠ c2) :
    snapshotFileName t1 c1 ≠ snapshotFileName t2 c2
    ∧ (∀ fs dir, ∃ fs', mkdirModel fs dir true = Except.ok fs' ∧ dir ∈ fs') := by
  constructor
  · intro h
    unfold snapshotFileName at h
    have e1 := List.append_inj_left' h rfl
    have e2 := List.append_inj_right e1
      (by simp [List.length_append, utc_stamp_length t1 h1, utc_stamp_length t2 h2])
    exact hc (padRepr_inj 4 c1 c2 e2)
  · intro fs dir
    by_cases hmem : dir ∈ fs
    · exact ⟨fs, by simp [mkdirModel, hmem], hmem⟩
    · exact ⟨dir :: fs, by simp [mkdirModel, hmem], List.mem_cons_self dir fs⟩

/-- Closed-input check of C9 at a concrete timestamp and cycles 1 and 2. -/
theorem snapshot_filenames_unique_witness :
    snapshotFileName ⟨2026, 10, 12, 9, 30, 0⟩ 1 ≠ snapshotFileName ⟨2026, 10, 12, 9, 30, 0⟩ 2
    ∧ (∀ fs dir, ∃ fs', mkdirModel fs dir true = Except.ok fs' ∧ dir ∈ fs') :=
  snapshot_filenames_unique ⟨2026, 10, 12, 9, 30, 0⟩ ⟨2026, 10, 12, 9, 30, 0⟩ 1 2
    (by norm_num [validDT]) (by norm_num [validDT]) (by norm_num)

end FlightSnapshotter
